import Mathlib

/-!
Verification development for the `cffdump` command-stream decoder
(`src/util/cffdump.c`): a shallow embedding of its packet classifier,
address-space resolver, register file, and per-opcode decode routines,
together with theorems settling the specification claims.

Conventions of the embedding:
* machine integers are `Nat` with explicit masking (`&&&`) exactly where the
  C masks; `uint64_t` additions that can wrap carry an explicit `% 2^64`;
* host memory is a total function `mem : Nat → Nat` giving the dword stored
  at a (byte) address; all dword reads happen at `ptr + 4*i`, mirroring
  `uint32_t *` indexing;
* output-only behaviour (printf/printl text, rnn register-name decoding,
  hex/float dumps, shader disassembly) has no effect on decoder state and is
  either omitted or represented by abstract trace events (`Ev`);
* the unbounded C recursion through indirect buffers is modelled with an
  explicit fuel parameter; every recursive call consumes one unit of fuel.
-/

/-- Packet-type tag constants. Modelled from the spec: the numeric values come
from the repository's generated PM4 header (`adreno_pm4.xml.h`, not under
`src/`); §4.2 of the spec describes the fixed 2-bit tags of the legacy
(type0/type2/type3) encodings and the fixed 4-bit tags of the parity
(type4/type7) encodings, with the glossary naming them after the standard PM4
packet-type numbers (type N in the top header bits). -/
def CP_TYPE0_PKT : Nat := 0x00000000

/-- Modelled from the spec: see `CP_TYPE0_PKT`. -/
def CP_TYPE2_PKT : Nat := 0x80000000

/-- Modelled from the spec: see `CP_TYPE0_PKT`. -/
def CP_TYPE3_PKT : Nat := 0xC0000000

/-- Modelled from the spec: see `CP_TYPE0_PKT`. -/
def CP_TYPE4_PKT : Nat := 0x40000000

/-- Modelled from the spec: see `CP_TYPE0_PKT`. -/
def CP_TYPE7_PKT : Nat := 0x70000000

/-- `pm4_calc_odd_parity_bit` (cffdump.c:1962-1968): folds the nibbles of the
value by XOR and looks the result up in the bit table 0x9669. -/
def pm4_calc_odd_parity_bit (val : Nat) : Nat :=
  (0x9669 >>> (0xf &&& (val ^^^ (val >>> 4) ^^^ (val >>> 8) ^^^ (val >>> 12) ^^^
      (val >>> 16) ^^^ (val >>> 20) ^^^ (val >>> 24) ^^^
      (val >>> 28)))) &&& 1

/-- `pkt_is_type0` (cffdump.c:1970). -/
def pkt_is_type0 (pkt : Nat) : Bool := pkt &&& 0xC0000000 == CP_TYPE0_PKT

/-- `type0_pkt_size` (cffdump.c:1971). -/
def type0_pkt_size (pkt : Nat) : Nat := ((pkt >>> 16) &&& 0x3FFF) + 1

/-- `type0_pkt_offset` (cffdump.c:1972). -/
def type0_pkt_offset (pkt : Nat) : Nat := pkt &&& 0x7FFF

/-- `pkt_is_type2` (cffdump.c:1974). -/
def pkt_is_type2 (pkt : Nat) : Bool := pkt == CP_TYPE2_PKT

/-- `pkt_is_type3` (cffdump.c:1981-1983): the type3 tag plus reserved bits
[1:7] and 15 zero. -/
def pkt_is_type3 (pkt : Nat) : Bool :=
  (pkt &&& 0xC0000000 == CP_TYPE3_PKT) && (pkt &&& 0x80FE == 0)

/-- `cp_type3_opcode` (cffdump.c:1985). -/
def cp_type3_opcode (pkt : Nat) : Nat := (pkt >>> 8) &&& 0xFF

/-- `type3_pkt_size` (cffdump.c:1986). -/
def type3_pkt_size (pkt : Nat) : Nat := ((pkt >>> 16) &&& 0x3FFF) + 1

/-- `type4_pkt_offset` (cffdump.c:1995). -/
def type4_pkt_offset (pkt : Nat) : Nat := (pkt >>> 8) &&& 0x7FFFF

/-- `type4_pkt_size` (cffdump.c:1996). -/
def type4_pkt_size (pkt : Nat) : Nat := pkt &&& 0x7F

/-- `pkt_is_type4` (cffdump.c:1988-1993): type4 tag plus the two odd-parity
check bits (bit 27 over the offset field, bit 7 over the size field). -/
def pkt_is_type4 (pkt : Nat) : Bool :=
  (pkt &&& 0xF0000000 == CP_TYPE4_PKT) &&
  ((pkt >>> 27) &&& 1 == pm4_calc_odd_parity_bit (type4_pkt_offset pkt)) &&
  ((pkt >>> 7) &&& 1 == pm4_calc_odd_parity_bit (type4_pkt_size pkt))

/-- `cp_type7_opcode` (cffdump.c:2006). -/
def cp_type7_opcode (pkt : Nat) : Nat := (pkt >>> 16) &&& 0x7F

/-- `type7_pkt_size` (cffdump.c:2007). -/
def type7_pkt_size (pkt : Nat) : Nat := pkt &&& 0x3FFF

/-- `pkt_is_type7` (cffdump.c:1998-2004): type7 tag, a reserved zero byte, and
the two odd-parity check bits (bit 23 over the opcode, bit 15 over the size). -/
def pkt_is_type7 (pkt : Nat) : Bool :=
  (pkt &&& 0xF0000000 == CP_TYPE7_PKT) && (pkt &&& 0x0F000000 == 0) &&
  ((pkt >>> 23) &&& 1 == pm4_calc_odd_parity_bit (cp_type7_opcode pkt)) &&
  ((pkt >>> 15) &&& 1 == pm4_calc_odd_parity_bit (type7_pkt_size pkt))

/-- `regcnt` (cffdump.c:64-70): number of summarised registers by generation. -/
def regcnt (gpu_id : Nat) : Nat := if 500 ≤ gpu_id then 0xffff else 0x7fff

/-- `is_64b` (cffdump.c:72-75). -/
def is_64b (gpu_id : Nat) : Bool := 500 ≤ gpu_id

/-- Length of the register-file arrays `type0_reg_vals` / `lastvals`
(cffdump.c:349-352): `uint32_t type0_reg_vals[0xffff + 1]`. -/
def type0_reg_vals_len : Nat := 0xffff + 1

/-- `struct buffer` (cffdump.c:207-211): one captured host snapshot of a GPU
virtual range.  `hostptr` is modelled as a byte address. -/
structure Buffer where
  hostptr : Nat
  len : Nat
  gpuaddr : Nat
deriving DecidableEq, Repr

/-- `buffer_contains_gpuaddr` (cffdump.c:216-219); the `len` parameter of the
C function is unused there, so it is dropped.  The `uint64_t` sum wraps. -/
def buffer_contains_gpuaddr (buf : Buffer) (gpuaddr : Nat) : Bool :=
  (buf.gpuaddr ≤ gpuaddr) && (gpuaddr < (buf.gpuaddr + buf.len) % 2^64)

/-- `buffer_contains_hostptr` (cffdump.c:221-224); pointer arithmetic on the
host side does not wrap. -/
def buffer_contains_hostptr (buf : Buffer) (hostptr : Nat) : Bool :=
  (buf.hostptr ≤ hostptr) && (hostptr < buf.hostptr + buf.len)

/-- `gpuaddr` (cffdump.c:227-234): linear scan, first containing region wins,
0 when unresolved. -/
def gpuaddr_of (bufs : List Buffer) (hostptr : Nat) : Nat :=
  match bufs with
  | [] => 0
  | b :: rest =>
      if buffer_contains_hostptr b hostptr then
        (b.gpuaddr + (hostptr - b.hostptr)) % 2^64
      else gpuaddr_of rest hostptr

/-- The scan loop of `hostptr` (cffdump.c:252-255). -/
def hostptr_scan (bufs : List Buffer) (gpuaddr : Nat) : Nat :=
  match bufs with
  | [] => 0
  | b :: rest =>
      if buffer_contains_gpuaddr b gpuaddr then b.hostptr + (gpuaddr - b.gpuaddr)
      else hostptr_scan rest gpuaddr

/-- `hostptr` (cffdump.c:247-256): a zero GPU address resolves to the null
pointer 0 before the scan. -/
def hostptr_of (bufs : List Buffer) (gpuaddr : Nat) : Nat :=
  if gpuaddr = 0 then 0 else hostptr_scan bufs gpuaddr

/-- Abstract trace events standing in for the decoder's diagnostic output.
Only output that the claims talk about is represented: the per-draw query
evaluation (`do_query`), the full register summary (`dump_register_summary`),
the "could not find" stderr line for an unresolved indirect buffer, the
"bad type!" line for an unrecognised header, the trailing
"this ain't right!! dwords_left=%d" corruption diagnostic, and the
"NULL cmd buffer!" line. -/
inductive Ev where
  | query (num_indices : Nat)
  | summary
  | ibNotFound (ibaddr ibsize : Nat)
  | badType (pkt : Nat)
  | truncated (dwords_left : Int)
  | nullBuffer
deriving DecidableEq, Repr

/-- The decoder's mutable process-wide state (the file-scope globals of
cffdump.c): the register file with its two dirty bitsets and draw-time
snapshot (`type0_reg_vals`, `type0_reg_written`, `type0_reg_rewritten`,
`lastvals`), the per-nesting-level draw counters `draws[]` and current level
`ib`, the global draw bookkeeping, the configuration flags consulted by
`quiet()`, the generation id, the captured buffer table, and host memory.
The fixed-size C arrays are modelled as total functions; the C array bounds
are recorded separately (`type0_reg_vals_len`). -/
structure DecodeState where
  regs : Nat → Nat
  written : Nat → Bool
  rewritten : Nat → Bool
  lastvals : Nat → Nat
  draws : Nat → Nat
  ib : Nat
  draw_count : Nat
  current_draw_count : Nat
  vertices : Nat
  needs_wfi : Bool
  summary : Bool
  allregs : Bool
  has_query : Bool
  has_script : Bool
  draw_filter : Int
  gpu_id : Nat
  render_mode : Nat
  mode : Nat
  buffers : List Buffer
  mem : Nat → Nat

/-- `quiet` (cffdump.c:97-106).  `has_query`/`has_script` model the
nullness tests of `querystrs` and `script`. -/
def quiet (st : DecodeState) (lvl : Nat) : Bool :=
  if st.draw_filter ≠ -1 ∧ st.draw_filter ≠ (st.current_draw_count : Int) then true
  else if 3 ≤ lvl ∧ (st.summary ∨ st.has_query ∨ st.has_script) then true
  else if 2 ≤ lvl ∧ (st.has_query ∨ st.has_script) then true
  else false

/-- `reg_set` (cffdump.c:390-395): store the value and set both dirty bits. -/
def reg_set (st : DecodeState) (regbase val : Nat) : DecodeState :=
  { st with
    regs := fun i => if i = regbase then val else st.regs i,
    written := fun i => if i = regbase then true else st.written i,
    rewritten := fun i => if i = regbase then true else st.rewritten i }

/-- `dump_registers` (cffdump.c:1013-1031): write each operand word into the
register file at an index that increments per word.  The NEEDS-WFI line, the
`dump_register` text and the per-register special handlers (`reg_dump_*`,
`reg_vsc_*`, `reg_vfd_*`, `reg_disasm_*`) are output-only — they never touch
the register file, the draw counters or the traversal context — and are
omitted, as is the no-op save/restore of the `summary` flag. -/
def dump_registers (st : DecodeState) (regbase ptr : Nat) : Nat → DecodeState
  | 0 => st
  | n+1 => dump_registers (reg_set st regbase (st.mem ptr)) (regbase+1) (ptr+4) n

/-- `do_query` (cffdump.c:1067-1100): prints the query-register lines and
fires the script draw hook; it reads decoder state but mutates nothing, so it
contributes only a trace event. -/
def do_query (num_indices : Nat) : List Ev := [.query num_indices]

/-- `dump_register_summary` (cffdump.c:1472-1504): for every register index
below `regcnt()` that was rewritten since the last draw (or all of them with
`--allregs`) and was ever written, refresh `lastvals` when the value changed;
afterwards clear all rewritten bits. -/
def dump_register_summary (st : DecodeState) : DecodeState × List Ev :=
  ({ st with
      lastvals := fun i =>
        if i < regcnt st.gpu_id ∧ (st.allregs ∨ st.rewritten i) ∧ st.written i ∧
            st.regs i ≠ st.lastvals i
        then st.regs i else st.lastvals i,
      rewritten := fun _ => false },
   [.summary])

/-- `draw_indx_common` (cffdump.c:1506-1530): query evaluation, vertex
accumulation, and the per-nesting-level draw counter bump; returns the
extracted index count (`dwords[1] >> 16`). -/
def draw_indx_common (st : DecodeState) (ptr : Nat) : DecodeState × List Ev × Nat :=
  let num_indices := (st.mem (ptr+4)) >>> 16
  ({ st with
      vertices := st.vertices + num_indices,
      draws := fun j => if j = st.ib then st.draws st.ib + 1 else st.draws j },
   do_query num_indices, num_indices)

/-- `cp_draw_indx` (cffdump.c:1531-1578).  The inline index-buffer rendering
(`sizedwords == 5`) is output-only and omitted; the register summary is
emitted only for a positive index count. -/
def cp_draw_indx (st : DecodeState) (ptr n : Nat) : DecodeState × List Ev :=
  let c := draw_indx_common st ptr
  let num_indices := c.2.2
  let st1 := { c.1 with summary := false }
  let s2 := if 0 < num_indices then dump_register_summary st1 else (st1, [])
  ({ s2.1 with draw_count := s2.1.draw_count + 1, summary := st.summary,
               needs_wfi := true },
   c.2.1 ++ s2.2)

/-- `cp_draw_indx_2` (cffdump.c:1580-1623): like `cp_draw_indx` but with an
inline index buffer (output-only) and no NEEDS-WFI marking. -/
def cp_draw_indx_2 (st : DecodeState) (ptr n : Nat) : DecodeState × List Ev :=
  let c := draw_indx_common st ptr
  let num_indices := c.2.2
  let st1 := { c.1 with summary := false }
  let s2 := if 0 < num_indices then dump_register_summary st1 else (st1, [])
  ({ s2.1 with draw_count := s2.1.draw_count + 1, summary := st.summary },
   c.2.1 ++ s2.2)

/-- `cp_draw_indx_offset` (cffdump.c:1625-1646): the index count is
`dwords[2]`; no per-level draw counter bump happens here. -/
def cp_draw_indx_offset (st : DecodeState) (ptr : Nat) : DecodeState × List Ev :=
  let num_indices := st.mem (ptr+8)
  let st1 := { st with summary := false }
  let s2 := if 0 < num_indices then dump_register_summary st1 else (st1, [])
  ({ s2.1 with draw_count := s2.1.draw_count + 1, summary := st.summary },
   do_query num_indices ++ s2.2)

/-- `cp_run_cl` (cffdump.c:1648-1660). -/
def cp_run_cl (st : DecodeState) : DecodeState × List Ev :=
  let st1 := { st with summary := false }
  let s2 := dump_register_summary st1
  ({ s2.1 with draw_count := s2.1.draw_count + 1, summary := st.summary },
   do_query 1 ++ s2.2)

/-- `cp_blit` (cffdump.c:1883-1893). -/
def cp_blit (st : DecodeState) : DecodeState × List Ev :=
  let st1 := { st with summary := false }
  let s2 := dump_register_summary st1
  ({ s2.1 with draw_count := s2.1.draw_count + 1, summary := st.summary },
   do_query 0 ++ s2.2)

/-- Modelled from the spec: `cp_event_write` (cffdump.c:1453-1470) resolves
the event id through the external register database and compares the name
against "BLIT"; §4.4 of the spec says a specific event name (BLIT) on newer
generations is an implicit draw boundary.  The database is outside the core,
so the BLIT event id is modelled as a fixed value. -/
def is_blit_event (val : Nat) : Bool := val == 0x1e

/-- `cp_event_write` (cffdump.c:1453-1470): on generations above 500 a BLIT
event triggers the draw-accounting step. -/
def cp_event_write (st : DecodeState) (ptr : Nat) : DecodeState × List Ev :=
  if 500 < st.gpu_id ∧ is_blit_event (st.mem ptr) then
    let st1 := { st with summary := false }
    let s2 := dump_register_summary st1
    ({ s2.1 with draw_count := s2.1.draw_count + 1, summary := st.summary },
     do_query 0 ++ s2.2)
  else (st, [])

/-- `cp_wfi` (cffdump.c:1731-1734). -/
def cp_wfi (st : DecodeState) : DecodeState × List Ev :=
  ({ st with needs_wfi := false }, [])

/-- `cp_rmw` (cffdump.c:1753-1762): read-modify-write of one register through
the normal write path. -/
def cp_rmw (st : DecodeState) (ptr : Nat) : DecodeState × List Ev :=
  let val := st.mem ptr &&& 0xffff
  let andv := st.mem (ptr+4)
  let orv := st.mem (ptr+8)
  (reg_set st val ((st.regs val &&& andv) ||| orv), [])

/-- `cp_wide_reg_write` (cffdump.c:1132-1141): `sizedwords - 1` operand words
written to consecutive registers starting at `dwords[0] & 0xffff`; the
per-word state effect is the same `reg_set` sequence as `dump_registers`. -/
def cp_wide_reg_write (st : DecodeState) (ptr n : Nat) : DecodeState × List Ev :=
  (dump_registers st (st.mem ptr &&& 0xffff) (ptr+4) (n-1), [])

/-- `cp_set_const` (cffdump.c:1402-1449).  Sub-types 0-3 only produce output;
sub-type 4 routes through the register-file write path, either the
ALU-relative single write (`dump_registers(val, &dstval, 1)`, i.e. one
`reg_set` of the wrapped 32-bit sum) or a sequential block write.  The
in-source asserts (`sizedwords == 3`, `srcreg` in bounds) abort the process
when violated and are not modelled. -/
def cp_set_const (st : DecodeState) (ptr n : Nat) : DecodeState × List Ev :=
  let d0 := st.mem ptr
  let val := d0 &&& 0xffff
  if (d0 >>> 16) &&& 0xf = 4 then
    let val := val + 0x2000
    if d0 &&& 0x80000000 ≠ 0 then
      let srcreg := st.mem (ptr+4)
      let dstval := (st.mem (ptr+8) + st.regs srcreg) % 2^32
      (reg_set st val dstval, [])
    else
      (dump_registers st val (ptr+4) (n-1), [])
  else (st, [])

/-- The indirect-buffer GPU address extracted by `cp_indirect`
(cffdump.c:1693-1701): 64-bit (low word, then high word) on a5xx+, else the
single first word. -/
def ibaddr_of (st : DecodeState) (ptr : Nat) : Nat :=
  if is_64b st.gpu_id then (st.mem ptr) ||| ((st.mem (ptr+4)) <<< 32)
  else st.mem ptr

/-- The indirect-buffer size in dwords extracted by `cp_indirect`
(cffdump.c:1693-1701). -/
def ibsize_of (st : DecodeState) (ptr : Nat) : Nat :=
  if is_64b st.gpu_id then st.mem (ptr+8) else st.mem (ptr+4)

/-- `cp_indirect` (cffdump.c:1685-1729), parameterised by the recursive
decode entry `dc` (`dump_commands` at the remaining fuel): scan the buffer
table for the first region containing the GPU address; when found, recurse
at nesting level `ib + 1`; when not found, report and skip the recursion. -/
def cp_indirect (dc : DecodeState → Nat → Nat → DecodeState × List Ev)
    (st : DecodeState) (ptr n : Nat) : DecodeState × List Ev :=
  let ibaddr := ibaddr_of st ptr
  let ibsize := ibsize_of st ptr
  match st.buffers.find? (fun b => buffer_contains_gpuaddr b ibaddr) with
  | some b =>
      let st1 := { st with ib := st.ib + 1 }
      let r := dc st1 (b.hostptr + (ibaddr - b.gpuaddr)) ibsize
      ({ r.1 with ib := r.1.ib - 1 }, r.2)
  | none => (st, [.ibNotFound ibaddr ibsize])

/-- The loop body of `cp_set_draw_state` (cffdump.c:1775-1807), iterating
groups of (count, addr) entries; each resolved group is decoded recursively
at nesting level `ib + 1`.  The auxiliary counter bounds the iteration count
(the C loop index advances by 2 or 3 each step, so `remaining` steps
suffice). -/
def set_draw_state_loop (dc : DecodeState → Nat → Nat → DecodeState × List Ev)
    (st : DecodeState) (ptr : Nat) : Nat → Nat → DecodeState × List Ev
  | 0, _ => (st, [])
  | _+1, 0 => (st, [])
  | steps+1, remaining+1 =>
      let count := st.mem ptr &&& 0xffff
      let addr := if is_64b st.gpu_id
                  then (st.mem (ptr+4)) ||| ((st.mem (ptr+8)) <<< 32)
                  else st.mem (ptr+4)
      let step := if is_64b st.gpu_id then 3 else 2
      let hp := hostptr_of st.buffers addr
      if hp ≠ 0 then
        let st1 := { st with ib := st.ib + 1 }
        let r := dc st1 hp count
        let st2 := { r.1 with ib := r.1.ib - 1 }
        let r2 := set_draw_state_loop dc st2 (ptr + 4*step) steps (remaining+1 - step)
        (r2.1, r.2 ++ r2.2)
      else
        set_draw_state_loop dc st (ptr + 4*step) steps (remaining+1 - step)

/-- `cp_set_draw_state` (cffdump.c:1775-1807). -/
def cp_set_draw_state (dc : DecodeState → Nat → Nat → DecodeState × List Ev)
    (st : DecodeState) (ptr n : Nat) : DecodeState × List Ev :=
  set_draw_state_loop dc st ptr n n

/-- `cp_set_render_mode` (cffdump.c:1815-1881): records `render_mode` and
`mode`, and for the 8-dword form recurses (behind a `quiet(2)` check) into
the second pointed-to command buffer at nesting level `ib + 1`.  The
in-source asserts on `sizedwords` abort the process and are not modelled. -/
def cp_set_render_mode (dc : DecodeState → Nat → Nat → DecodeState × List Ev)
    (st : DecodeState) (ptr n : Nat) : DecodeState × List Ev :=
  let st := { st with render_mode := st.mem ptr }
  if n = 1 then (st, []) else
  let st := { st with mode := st.mem (ptr+12) }
  if n = 5 then (st, []) else
  let len := st.mem (ptr+20)
  let addr := (st.mem (ptr+24)) ||| ((st.mem (ptr+28)) <<< 32)
  let hp := hostptr_of st.buffers addr
  if hp ≠ 0 then
    if quiet st 2 = false then
      let st1 := { st with ib := st.ib + 1 }
      let r := dc st1 hp len
      ({ r.1 with ib := r.1.ib - 1 }, r.2)
    else (st, [])
  else (st, [])

/-- Tags naming the decode routine stored in a `type3_op[]` table slot
(cffdump.c:1895-1959); `none` stands for an absent (`NULL`) entry. -/
inductive OpFxn where
  | none | nop | indirect | wfi | rmw | regToMem | memWrite | eventWrite
  | runCl | drawIndx | drawIndx2 | setConst | imLoadi | wideRegWrite
  | loadState | setBin | setDrawState | drawIndxOffset | execCs
  | setRenderMode | blit
deriving DecidableEq, Repr

/-- Modelled from the spec: the opcode numbers populating the `type3_op[]`
dispatch table (cffdump.c:1895-1959) are the `CP_*` enumerators of the
generated PM4 header (`adreno_pm4.xml.h`, not under `src/`); §4.4 of the spec
describes the table as a fixed map from opcode number to decode routine.
Entries whose routine is `NULL` in the table, and opcodes outside the table,
map to `none`. -/
def type3_op (op : Nat) : OpFxn :=
  if op = 0x10 then .nop                -- CP_NOP
  else if op = 0x3f then .indirect      -- CP_INDIRECT_BUFFER
  else if op = 0x37 then .indirect      -- CP_INDIRECT_BUFFER_PFD
  else if op = 0x26 then .wfi           -- CP_WAIT_FOR_IDLE
  else if op = 0x21 then .rmw           -- CP_REG_RMW
  else if op = 0x3e then .regToMem      -- CP_REG_TO_MEM
  else if op = 0x3d then .memWrite      -- CP_MEM_WRITE
  else if op = 0x46 then .eventWrite    -- CP_EVENT_WRITE
  else if op = 0x31 then .runCl         -- CP_RUN_OPENCL
  else if op = 0x22 then .drawIndx      -- CP_DRAW_INDX
  else if op = 0x36 then .drawIndx2     -- CP_DRAW_INDX_2
  else if op = 0x2d then .setConst      -- CP_SET_CONSTANT
  else if op = 0x2b then .imLoadi       -- CP_IM_LOAD_IMMEDIATE
  else if op = 0x74 then .wideRegWrite  -- CP_WIDE_REG_WRITE
  else if op = 0x30 then .loadState     -- CP_LOAD_STATE
  else if op = 0x8c then .setBin        -- CP_SET_BIN
  else if op = 0x43 then .setDrawState  -- CP_SET_DRAW_STATE
  else if op = 0x38 then .drawIndxOffset -- CP_DRAW_INDX_OFFSET
  else if op = 0x33 then .execCs        -- CP_EXEC_CS
  else if op = 0x6c then .setRenderMode -- CP_SET_RENDER_MODE
  else if op = 0x2c then .blit          -- CP_BLIT
  else .none

/-- The `type3_op[val].fxn(dwords+1, count-1, level+1)` dispatch of
`dump_commands` (cffdump.c:2084-2085, 2102-2103), parameterised by the
recursive decode entry `dc`.  Routines whose only effect is output
(`cp_nop`, `cp_mem_write`, `cp_reg_to_mem`, `cp_im_loadi`, `cp_load_state`,
`cp_set_bin` — the latter two touch only print-side bookkeeping) leave the
decoder state unchanged, as does an absent entry. -/
def dispatch_op (dc : DecodeState → Nat → Nat → DecodeState × List Ev)
    (st : DecodeState) (op ptr n : Nat) : DecodeState × List Ev :=
  match type3_op op with
  | .indirect => cp_indirect dc st ptr n
  | .setDrawState => cp_set_draw_state dc st ptr n
  | .setRenderMode => cp_set_render_mode dc st ptr n
  | .wfi => cp_wfi st
  | .rmw => cp_rmw st ptr
  | .eventWrite => cp_event_write st ptr
  | .runCl => cp_run_cl st
  | .drawIndx => cp_draw_indx st ptr n
  | .drawIndx2 => cp_draw_indx_2 st ptr n
  | .drawIndxOffset => cp_draw_indx_offset st ptr
  | .execCs => dump_register_summary st
  | .blit => cp_blit st
  | .setConst => cp_set_const st ptr n
  | .wideRegWrite => cp_wide_reg_write st ptr n
  | .nop => (st, [])
  | .memWrite => (st, [])
  | .regToMem => (st, [])
  | .imLoadi => (st, [])
  | .loadState => (st, [])
  | .setBin => (st, [])
  | .none => (st, [])

/-- The body of `dump_commands` after the NULL check and the `draws[ib] = 0`
reset (cffdump.c:2023-2120), parameterised by the packet loop: run the loop,
then report the "this ain't right" diagnostic when the remaining dword count
went negative. -/
def dump_commands_core
    (loop : DecodeState → Nat → Int → Nat → DecodeState × List Ev × Int)
    (st : DecodeState) (ptr sizedwords : Nat) : DecodeState × List Ev :=
  if ptr = 0 then (st, [.nullBuffer])
  else
    let st1 := { st with draws := fun j => if j = st.ib then 0 else st.draws j }
    let r := loop st1 ptr (sizedwords : Int) 0
    if r.2.2 < 0 then (r.1, r.2.1 ++ [.truncated r.2.2]) else (r.1, r.2.1)

/-- The `while (dwords_left > 0)` packet loop of `dump_commands`
(cffdump.c:2023-2117).  `count0` is the incoming value of the C variable
`count`, which a type2 packet leaves unchanged (the type2 branch sets no new
count, so the previous packet's count — initially 0 — is consumed again).
A recognised packet is processed in full (its operand words are read via
`st.mem` wherever its handler dereferences them) before `dwords_left` is
reduced; an unrecognised header aborts the loop with a `badType` event.
Fuel bounds the unbounded C recursion; every recursive call consumes one
unit. -/
def dump_loop : Nat → DecodeState → Nat → Int → Nat → DecodeState × List Ev × Int
  | 0, st, _, left, _ => (st, [], left)
  | fuel+1, st, ptr, left, count0 =>
    if left ≤ 0 then (st, [], left)
    else
      let st := { st with current_draw_count := st.draw_count }
      let pkt := st.mem ptr
      if pkt_is_type0 pkt then
        let count := type0_pkt_size pkt + 1
        let st1 := dump_registers st (type0_pkt_offset pkt) (ptr+4) (count-1)
        let r := dump_loop fuel st1 (ptr + 4*count) (left - count) count
        (r.1, r.2.1, r.2.2)
      else if pkt_is_type4 pkt then
        let count := type4_pkt_size pkt + 1
        let st1 := dump_registers st (type4_pkt_offset pkt) (ptr+4) (count-1)
        let r := dump_loop fuel st1 (ptr + 4*count) (left - count) count
        (r.1, r.2.1, r.2.2)
      else if pkt_is_type3 pkt then
        let count := type3_pkt_size pkt + 1
        let d := dispatch_op (dump_commands_core (dump_loop fuel)) st
                   (cp_type3_opcode pkt) (ptr+4) (count-1)
        let r := dump_loop fuel d.1 (ptr + 4*count) (left - count) count
        (r.1, d.2 ++ r.2.1, r.2.2)
      else if pkt_is_type7 pkt then
        let count := type7_pkt_size pkt + 1
        let d := dispatch_op (dump_commands_core (dump_loop fuel)) st
                   (cp_type7_opcode pkt) (ptr+4) (count-1)
        let r := dump_loop fuel d.1 (ptr + 4*count) (left - count) count
        (r.1, d.2 ++ r.2.1, r.2.2)
      else if pkt_is_type2 pkt then
        dump_loop fuel st (ptr + 4*count0) (left - count0) count0
      else
        (st, [.badType pkt], left)

/-- `dump_commands` (cffdump.c:2010-2121) at a given fuel. -/
def dump_commands (fuel : Nat) (st : DecodeState) (ptr sizedwords : Nat) :
    DecodeState × List Ev :=
  dump_commands_core (dump_loop fuel) st ptr sizedwords

/-- Decoder state at the start of one capture (`handle_file`,
cffdump.c:2385-2386 resets the register file; the remaining globals are
zero-initialised file-scope state, with `draw_filter` defaulting to -1 when
no `--draw` filter is given). -/
def initState (gpu : Nat) (bufs : List Buffer) (mem : Nat → Nat) : DecodeState :=
  { regs := fun _ => 0, written := fun _ => false, rewritten := fun _ => false,
    lastvals := fun _ => 0, draws := fun _ => 0, ib := 0,
    draw_count := 0, current_draw_count := 0, vertices := 0,
    needs_wfi := false, summary := false, allregs := false,
    has_query := false, has_script := false, draw_filter := -1,
    gpu_id := gpu, render_mode := 0, mode := 0,
    buffers := bufs, mem := mem }

/-- Per-unit advance of the texture-constant dword cursor in the
`SB_FRAG_TEX`/`SB_VERT_TEX` constants branch of `cp_load_state`
(cffdump.c:1264-1295): `texconst += 4` for generations in [300,400),
`+= 8` for [400,500), `+= 12` for [500,600), and no branch advances it
otherwise. -/
def texconst_advance (gpu_id : Nat) : Nat :=
  if 300 ≤ gpu_id ∧ gpu_id < 400 then 4
  else if 400 ≤ gpu_id ∧ gpu_id < 500 then 8
  else if 500 ≤ gpu_id ∧ gpu_id < 600 then 12
  else 0

/-- The texture-constant unit loop of `cp_load_state` (cffdump.c:1265-1295):
`remaining` units left to decode, cursor `c` in dwords from the start of the
contents; the loop stops early on the all-zero-unit heuristic, which fires
only when `num_unit == 16`. -/
def texconst_cursor (gpu_id num_unit : Nat) (contents : Nat → Nat) :
    Nat → Nat → Nat
  | 0, c => c
  | remaining+1, c =>
      if num_unit = 16 ∧ contents c = 0 ∧ contents (c+1) = 0 ∧
          contents (c+2) = 0 ∧ contents (c+3) = 0 then c
      else texconst_cursor gpu_id num_unit contents remaining
             (c + texconst_advance gpu_id)

/-- Invariant shape used for the nesting claims: a decode entry restores the
nesting level and leaves the draw counters of all strictly outer levels
untouched. -/
def KeepsOuter (dc : DecodeState → Nat → Nat → DecodeState × List Ev) : Prop :=
  ∀ st ptr sz, (dc st ptr sz).1.ib = st.ib ∧
    ∀ j, j < st.ib → (dc st ptr sz).1.draws j = st.draws j

/-- Invariant shape for the packet loop: same as `KeepsOuter` but over the
loop's argument list. -/
def LoopKeeps (loop : DecodeState → Nat → Int → Nat → DecodeState × List Ev × Int) :
    Prop :=
  ∀ st ptr left c0, (loop st ptr left c0).1.ib = st.ib ∧
    ∀ j, j < st.ib → (loop st ptr left c0).1.draws j = st.draws j

/-- One-dword stream holding only the truncated type0 header 0x00010000 (two
operand words declared) at byte address 4; every dword beyond the buffer
reads as the fill value `v`, so reads past the end are observable. -/
def c1st (v : Nat) : DecodeState :=
  initState 300 [] (fun a => if a = 4 then 0x00010000 else v)

/-- Two-dword stream at gpu 500: a parity-valid type4 header with offset
field 0x10000 and one operand word 0xbeef. -/
def c2st : DecodeState :=
  initState 500 []
    (fun a => if a = 4 then 0x41000001 else if a = 8 then 0xbeef else 0)

/-- The spec scenario stream: header 0x72000003 followed by 1 and 2. -/
def c3st : DecodeState :=
  initState 300 []
    (fun a => if a = 4 then 0x72000003 else if a = 8 then 1 else
              if a = 12 then 2 else 0)

/-- The stream that actually realises the spec scenario's intent: type0
header 0x00010000 (2 operand words, base register 0) followed by 1 and 2. -/
def c3stGood : DecodeState :=
  initState 300 []
    (fun a => if a = 4 then 0x00010000 else if a = 8 then 1 else
              if a = 12 then 2 else 0)

/-- A type0 packet with the repeat flag (bit 15) set: header 0x00018000
(2 operand words, base register 0) followed by 5 and 6. -/
def c4st : DecodeState :=
  initState 300 []
    (fun a => if a = 4 then 0x00018000 else if a = 8 then 5 else
              if a = 12 then 6 else 0)

/-- A single registered region for the round-trip witness. -/
def c5buf : Buffer := ⟨100, 10, 4096⟩

/-- Buffer table with just `c5buf`. -/
def c5bufs1 : List Buffer := [c5buf]

/-- A second region whose GPU range coincides with an earlier one. -/
def c5buf2 : Buffer := ⟨200, 10, 4096⟩

/-- Buffer table with two regions sharing the same GPU range: the earlier one
shadows the reverse (GPU-to-host) lookup. -/
def c5bufs2 : List Buffer := [⟨100, 10, 4096⟩, c5buf2]

/-- Stream with an unresolvable indirect-buffer packet (no buffers are
registered) followed by a type0 write of 0xCAFE to register 5:
[0xC0013F00 (type3, opcode 0x3f, 2 payload dwords), 0x9999, 2,
 0x00000005, 0xCAFE]. -/
def c7st : DecodeState :=
  initState 300 []
    (fun a => if a = 4 then 0xC0013F00 else if a = 8 then 0x9999 else
              if a = 12 then 2 else if a = 16 then 0x00000005 else
              if a = 20 then 0xCAFE else 0)

/-- State for the nesting witness: an indirect-buffer payload (address
0x2000, 3 dwords) resolving into a registered region at host address 100,
whose contents are a type3 CP_DRAW_INDX packet with index count 5; every
outer draw counter starts at 7. -/
def c8st : DecodeState :=
  { initState 300 [⟨100, 40, 0x2000⟩]
      (fun a => if a = 4 then 0x2000 else if a = 8 then 3 else
                if a = 100 then 0xC0022200 else if a = 104 then 0 else
                if a = 108 then 5 <<< 16 else 0) with
    draws := fun _ => 7 }

/-- All-zero stream: any draw packet decoded from it has index count 0. -/
def c9st : DecodeState := initState 300 [] (fun _ => 0)

/-- Stream whose draw packets carry index count 5 (`dwords[1] >> 16` for
`cp_draw_indx` at payload 4, `dwords[2]` for `cp_draw_indx_offset`). -/
def c9stPos : DecodeState :=
  initState 300 []
    (fun a => if a = 8 then 5 <<< 16 else if a = 12 then 5 else 0)

/-- All-ones texture-constant contents (never triggers the all-zero-unit
truncation heuristic). -/
def c10contents : Nat → Nat := fun _ => 1

/-! ### Lemmas about the address-space resolver -/

/-- The forward scan `gpuaddr` is the first-match lookup over the buffer
table. -/
theorem gpuaddr_of_eq_find (bufs : List Buffer) (p : Nat) :
    gpuaddr_of bufs p =
      (match bufs.find? (fun b => buffer_contains_hostptr b p) with
       | some b => (b.gpuaddr + (p - b.hostptr)) % 2^64
       | none => 0) := by
  induction bufs with
  | nil => rfl
  | cons b rest ih =>
      cases h : buffer_contains_hostptr b p with
      | true => simp [gpuaddr_of, List.find?, h]
      | false => simpa [gpuaddr_of, List.find?, h] using ih

/-- The reverse scan of `hostptr` is the first-match lookup over the buffer
table. -/
theorem hostptr_scan_eq_find (bufs : List Buffer) (g : Nat) :
    hostptr_scan bufs g =
      (match bufs.find? (fun b => buffer_contains_gpuaddr b g) with
       | some b => b.hostptr + (g - b.gpuaddr)
       | none => 0) := by
  induction bufs with
  | nil => rfl
  | cons b rest ih =>
      cases h : buffer_contains_gpuaddr b g with
      | true => simp [hostptr_scan, List.find?, h]
      | false => simpa [hostptr_scan, List.find?, h] using ih

/-- C5 (corrected): the round-trip `hostptr(gpuaddr(p)) = p` holds when the
first region containing the host pointer `p` is also the first region
containing the resolved GPU address (overlapping GPU ranges let an earlier
region shadow the reverse lookup), that GPU address is nonzero (`hostptr`
maps the 0 address to the null pointer), and the region's 64-bit GPU range
does not wrap. -/
theorem resolve_round_trip_first_match (bufs : List Buffer) (p : Nat) (b : Buffer)
    (hb : bufs.find? (fun x => buffer_contains_hostptr x p) = some b)
    (hg : bufs.find? (fun x => buffer_contains_gpuaddr x (gpuaddr_of bufs p)) = some b)
    (hnz : gpuaddr_of bufs p ≠ 0)
    (hwf : b.gpuaddr + b.len < 2^64) :
    hostptr_of bufs (gpuaddr_of bufs p) = p := by
  have hcont := List.find?_some hb
  have h1 : b.hostptr ≤ p ∧ p < b.hostptr + b.len := by
    simpa [buffer_contains_hostptr] using hcont
  have hsum : b.gpuaddr + (p - b.hostptr) < 2^64 := by omega
  have hga : gpuaddr_of bufs p = b.gpuaddr + (p - b.hostptr) := by
    rw [gpuaddr_of_eq_find, hb]
    exact Nat.mod_eq_of_lt hsum
  have hfinal : hostptr_scan bufs (gpuaddr_of bufs p) =
      b.hostptr + (gpuaddr_of bufs p - b.gpuaddr) := by
    rw [hostptr_scan_eq_find, hg]
  rw [hostptr_of, if_neg hnz, hfinal, hga]
  omega

/-- C5 witness: a host pointer inside the single registered region
round-trips. -/
theorem resolve_round_trip_first_match_witness :
    gpuaddr_of c5bufs1 105 ≠ 0 ∧
    c5buf.gpuaddr + c5buf.len < 2^64 ∧
    hostptr_of c5bufs1 (gpuaddr_of c5bufs1 105) = 105 :=
  ⟨by decide, by decide,
   resolve_round_trip_first_match c5bufs1 105 c5buf (by decide) (by decide)
     (by decide) (by decide)⟩

/-- C5 counterexample: host pointer 200 lies inside the second registered
region, but because the first region covers the same GPU range, resolving
the GPU address back yields host pointer 100, not 200 — the round-trip of
the claim fails for a pointer that does fall within a registered region. -/
theorem resolve_round_trip_cex :
    c5buf2 ∈ c5bufs2 ∧
    buffer_contains_hostptr c5buf2 200 = true ∧
    gpuaddr_of c5bufs2 200 = 4096 ∧
    hostptr_of c5bufs2 (gpuaddr_of c5bufs2 200) = 100 ∧
    (100 : Nat) ≠ 200 := by decide

/-! ### Parity classification (claim C6) -/

/-- C6 (confirmed): a header word whose stored parity bit differs from the
odd parity computed over the corresponding field is not classified as a
type4 register write, respectively not as a type7 opcode packet. -/
theorem parity_mismatch_rejects_kind (pkt : Nat) :
    (((pkt >>> 27) &&& 1 ≠ pm4_calc_odd_parity_bit (type4_pkt_offset pkt) ∨
      (pkt >>> 7) &&& 1 ≠ pm4_calc_odd_parity_bit (type4_pkt_size pkt)) →
        pkt_is_type4 pkt = false) ∧
    (((pkt >>> 23) &&& 1 ≠ pm4_calc_odd_parity_bit (cp_type7_opcode pkt) ∨
      (pkt >>> 15) &&& 1 ≠ pm4_calc_odd_parity_bit (type7_pkt_size pkt)) →
        pkt_is_type7 pkt = false) := by
  constructor
  · rintro (h | h) <;> simp only [Nat.and_one_is_mod] at h <;> simp [pkt_is_type4, h]
  · rintro (h | h) <;> simp only [Nat.and_one_is_mod] at h <;> simp [pkt_is_type7, h]

/-- C6 witness: 0x40000000 carries the type4 tag but parity bit 27 (0) does
not match the odd parity of its zero offset field (1), so it is rejected. -/
theorem parity_mismatch_rejects_kind_witness :
    ((0x40000000 : Nat) >>> 27) &&& 1 ≠
      pm4_calc_odd_parity_bit (type4_pkt_offset 0x40000000) ∧
    pkt_is_type4 0x40000000 = false :=
  ⟨by decide, (parity_mismatch_rejects_kind 0x40000000).1 (Or.inl (by decide))⟩

/-! ### Register-file bounds (claim C2) -/

/-- C2 (code bug): the type4 offset field is 19 bits wide and is used
unchecked as the starting register index, while the register-file arrays
have only 0x10000 entries; the parity-valid header 0x41000001 carries offset
0x10000 and decoding it performs a register write at index 0x10000, one past
the last valid index 0xffff. -/
theorem type4_offset_out_of_bounds_write :
    pkt_is_type4 0x41000001 = true ∧
    type4_pkt_offset 0x41000001 = 0x10000 ∧
    type0_reg_vals_len = 0x10000 ∧
    (dump_commands 2 c2st 4 2).1.written 0x10000 = true ∧
    (dump_commands 2 c2st 4 2).1.regs 0x10000 = 0xbeef := by decide

/-! ### The spec's register-write scenario (claim C3) -/

/-- C3 counterexample: the header 0x72000003 matches none of the packet
encodings (its top two bits are 01, not the type0 tag 00; its second nibble
breaks the type7 reserved byte), so decoding the claimed stream aborts with
a bad-type diagnostic and writes no register at all. -/
theorem header_72000003_not_type0_cex :
    pkt_is_type0 0x72000003 = false ∧
    pkt_is_type4 0x72000003 = false ∧
    pkt_is_type3 0x72000003 = false ∧
    pkt_is_type7 0x72000003 = false ∧
    pkt_is_type2 0x72000003 = false ∧
    (dump_commands 2 c3st 4 3).2 = [Ev.badType 0x72000003] ∧
    (dump_commands 2 c3st 4 3).1.written 0 = false ∧
    (dump_commands 2 c3st 4 3).1.regs 0 = 0 ∧
    (dump_commands 2 c3st 4 3).1.written 1 = false := by decide

/-- C3 (corrected): the type0 header that does encode 2 operand words with
base register 0 is 0x00010000; decoding it followed by operand words 1 and 2
writes register 0 = 1 and register 1 = 2 with both registers' written and
rewritten bits set, and no diagnostic. -/
theorem type0_regwrite_scenario_corrected :
    pkt_is_type0 0x00010000 = true ∧
    type0_pkt_size 0x00010000 = 2 ∧
    type0_pkt_offset 0x00010000 = 0 ∧
    (dump_commands 2 c3stGood 4 3).1.regs 0 = 1 ∧
    (dump_commands 2 c3stGood 4 3).1.regs 1 = 2 ∧
    (dump_commands 2 c3stGood 4 3).1.written 0 = true ∧
    (dump_commands 2 c3stGood 4 3).1.rewritten 0 = true ∧
    (dump_commands 2 c3stGood 4 3).1.written 1 = true ∧
    (dump_commands 2 c3stGood 4 3).1.rewritten 1 = true ∧
    (dump_commands 2 c3stGood 4 3).2 = [] := by decide

/-! ### The type0 repeat flag (claim C4) -/

/-- C4 counterexample: decoding the type0 packet 0x00018000 (repeat flag bit
15 set, base register 0, two operand words 5 then 6) writes register 0 = 5
and register 1 = 6 — the operand words land in sequentially increasing
registers, not all in the starting register (which would have left register
1 unwritten and register 0 = 6). -/
theorem repeat_flag_ignored_cex :
    (0x00018000 : Nat) &&& 0x8000 ≠ 0 ∧
    pkt_is_type0 0x00018000 = true ∧
    type0_pkt_offset 0x00018000 = 0 ∧
    (dump_commands 2 c4st 4 3).1.regs 0 = 5 ∧
    (dump_commands 2 c4st 4 3).1.regs 1 = 6 ∧
    (dump_commands 2 c4st 4 3).1.written 1 = true ∧
    ¬ (dump_commands 2 c4st 4 3).1.regs 0 = 6 := by decide

/-! ### Draws with index count 0 (claim C9) -/

/-- C9 (confirmed): for both `cp_draw_indx` and `cp_draw_indx_offset`, an
index count of 0 increments the draw counter without emitting a register
summary (so the rewritten-since-draw bits survive), and the summary is
emitted exactly when the index count is positive. -/
theorem draw_zero_indices_no_summary (st : DecodeState) (ptr n : Nat) :
    ((st.mem (ptr+4)) >>> 16 = 0 →
      (cp_draw_indx st ptr n).1.draw_count = st.draw_count + 1 ∧
      (cp_draw_indx st ptr n).1.rewritten = st.rewritten ∧
      Ev.summary ∉ (cp_draw_indx st ptr n).2) ∧
    (0 < (st.mem (ptr+4)) >>> 16 → Ev.summary ∈ (cp_draw_indx st ptr n).2) ∧
    (st.mem (ptr+8) = 0 →
      (cp_draw_indx_offset st ptr).1.draw_count = st.draw_count + 1 ∧
      (cp_draw_indx_offset st ptr).1.rewritten = st.rewritten ∧
      Ev.summary ∉ (cp_draw_indx_offset st ptr).2) ∧
    (0 < st.mem (ptr+8) → Ev.summary ∈ (cp_draw_indx_offset st ptr).2) := by
  refine ⟨fun h => ?_, fun h => ?_, fun h => ?_, fun h => ?_⟩
  · simp [cp_draw_indx, draw_indx_common, do_query, h]
  · simp [cp_draw_indx, draw_indx_common, do_query, dump_register_summary, h]
  · simp [cp_draw_indx_offset, do_query, h]
  · simp [cp_draw_indx_offset, do_query, dump_register_summary, h]

/-- C9 witness: on the all-zero stream, `cp_draw_indx` extracts index count
0, bumps the draw counter, keeps the rewritten bits and emits no summary. -/
theorem draw_zero_indices_no_summary_witness :
    (c9st.mem (4+4)) >>> 16 = 0 ∧
    ((cp_draw_indx c9st 4 5).1.draw_count = c9st.draw_count + 1 ∧
     (cp_draw_indx c9st 4 5).1.rewritten = c9st.rewritten ∧
     Ev.summary ∉ (cp_draw_indx c9st 4 5).2) :=
  ⟨by decide, (draw_zero_indices_no_summary c9st 4 5).1 (by decide)⟩

/-! ### Texture-constant stride (claim C10) -/

/-- C10 counterexample: generation 600 is "500 or greater", yet no branch of
the texture-constant decode advances the cursor there — the per-unit advance
is 0 dwords, not 12. -/
theorem texconst_stride_gen600_cex :
    (500 : Nat) ≤ 600 ∧
    texconst_advance 600 = 0 ∧
    texconst_cursor 600 1 c10contents 1 0 = 0 ∧
    ¬ texconst_cursor 600 1 c10contents 1 0 = 12 := by decide

/-- C10 (corrected): each decoded texture-constant unit (one that does not
trigger the all-zero-unit truncation heuristic) advances the dword cursor by
exactly `texconst_advance`: 4 dwords on [300,400), 8 on [400,500), 12 on
[500,600), and 0 on 600 and above (no branch matches there). -/
theorem texconst_stride_by_generation (gpu num_unit remaining c : Nat)
    (contents : Nat → Nat)
    (hnb : ¬(num_unit = 16 ∧ contents c = 0 ∧ contents (c+1) = 0 ∧
             contents (c+2) = 0 ∧ contents (c+3) = 0)) :
    texconst_cursor gpu num_unit contents (remaining+1) c =
      texconst_cursor gpu num_unit contents remaining (c + texconst_advance gpu) ∧
    (300 ≤ gpu ∧ gpu < 400 → texconst_advance gpu = 4) ∧
    (400 ≤ gpu ∧ gpu < 500 → texconst_advance gpu = 8) ∧
    (500 ≤ gpu ∧ gpu < 600 → texconst_advance gpu = 12) ∧
    (600 ≤ gpu → texconst_advance gpu = 0) := by
  refine ⟨?_, fun h => ?_, fun h => ?_, fun h => ?_, fun h => ?_⟩
  · rw [texconst_cursor, if_neg hnb]
  · rw [texconst_advance, if_pos h]
  · rw [texconst_advance, if_neg (by omega), if_pos h]
  · rw [texconst_advance, if_neg (by omega), if_neg (by omega), if_pos h]
  · rw [texconst_advance, if_neg (by omega), if_neg (by omega), if_neg (by omega)]

/-- C10 witness: at generation 500 with two all-ones units, each decoded
unit advances the cursor by 12 dwords. -/
theorem texconst_stride_by_generation_witness :
    ¬((2 : Nat) = 16 ∧ c10contents 0 = 0 ∧ c10contents (0+1) = 0 ∧
      c10contents (0+2) = 0 ∧ c10contents (0+3) = 0) ∧
    (texconst_cursor 500 2 c10contents (1+1) 0 =
       texconst_cursor 500 2 c10contents 1 (0 + texconst_advance 500) ∧
     (300 ≤ 500 ∧ 500 < 400 → texconst_advance 500 = 4) ∧
     (400 ≤ 500 ∧ 500 < 500 → texconst_advance 500 = 8) ∧
     (500 ≤ 500 ∧ 500 < 600 → texconst_advance 500 = 12) ∧
     (600 ≤ 500 → texconst_advance 500 = 0)) :=
  ⟨by decide, texconst_stride_by_generation 500 2 1 0 c10contents (by decide)⟩

theorem dump_registers_mem (st : DecodeState) (regbase ptr n : Nat) :
    (dump_registers st regbase ptr n).mem = st.mem := by
  induction n generalizing st regbase ptr with
  | zero => rfl
  | succ n ih => rw [dump_registers, ih]; rfl

theorem dump_registers_below (st : DecodeState) (regbase ptr n i : Nat)
    (h : i < regbase) :
    (dump_registers st regbase ptr n).regs i = st.regs i ∧
    (dump_registers st regbase ptr n).written i = st.written i ∧
    (dump_registers st regbase ptr n).rewritten i = st.rewritten i := by
  induction n generalizing st regbase ptr with
  | zero => exact ⟨rfl, rfl, rfl⟩
  | succ n ih =>
      have hrec := ih (reg_set st regbase (st.mem ptr)) (regbase+1) (ptr+4)
        (Nat.lt_succ_of_lt h)
      have hne : i ≠ regbase := Nat.ne_of_lt h
      simpa [dump_registers, reg_set, hne] using hrec

theorem dump_registers_writes_seq (st : DecodeState) (regbase ptr n j : Nat)
    (hj : j < n) :
    (dump_registers st regbase ptr n).regs (regbase + j) = st.mem (ptr + 4*j) ∧
    (dump_registers st regbase ptr n).written (regbase + j) = true ∧
    (dump_registers st regbase ptr n).rewritten (regbase + j) = true := by
  induction n generalizing st regbase ptr j with
  | zero => omega
  | succ n ih =>
      cases j with
      | zero =>
          have hb := dump_registers_below (reg_set st regbase (st.mem ptr))
            (regbase+1) (ptr+4) n regbase (Nat.lt_succ_self _)
          simpa [dump_registers, reg_set] using hb
      | succ j =>
          have hrec := ih (reg_set st regbase (st.mem ptr)) (regbase+1) (ptr+4) j
            (Nat.lt_of_succ_lt_succ hj)
          have e1 : regbase + 1 + j = regbase + (j+1) := by omega
          have e2 : ptr + 4 + 4*j = ptr + 4*(j+1) := by omega
          rw [dump_registers]
          rw [← e1, ← e2]
          simpa [reg_set] using hrec

theorem dump_loop_type0_step (fuel : Nat) (st : DecodeState) (ptr : Nat)
    (left : Int) (c0 : Nat)
    (hl : 0 < left) (h0 : pkt_is_type0 (st.mem ptr) = true) :
    dump_loop (fuel+1) st ptr left c0 =
      (let st2 := { st with current_draw_count := st.draw_count }
       let count := type0_pkt_size (st.mem ptr) + 1
       let st3 := dump_registers st2 (type0_pkt_offset (st.mem ptr)) (ptr+4)
                    (type0_pkt_size (st.mem ptr))
       let r := dump_loop fuel st3 (ptr + 4*count) (left - count) count
       (r.1, r.2.1, r.2.2)) := by
  rw [dump_loop]
  rw [if_neg (by omega)]
  simp only [h0, if_true, Nat.add_sub_cancel]

theorem dump_loop_type3_step (fuel : Nat) (st : DecodeState) (ptr : Nat)
    (left : Int) (c0 : Nat)
    (hl : 0 < left)
    (h0 : pkt_is_type0 (st.mem ptr) = false)
    (h4 : pkt_is_type4 (st.mem ptr) = false)
    (h3 : pkt_is_type3 (st.mem ptr) = true) :
    dump_loop (fuel+1) st ptr left c0 =
      (let st2 := { st with current_draw_count := st.draw_count }
       let count := type3_pkt_size (st.mem ptr) + 1
       let d := dispatch_op (dump_commands_core (dump_loop fuel)) st2
                  (cp_type3_opcode (st.mem ptr)) (ptr+4) (count-1)
       let r := dump_loop fuel d.1 (ptr + 4*count) (left - count) count
       (r.1, d.2 ++ r.2.1, r.2.2)) := by
  rw [dump_loop]
  rw [if_neg (by omega)]
  simp only [h0, h4, h3, if_true, Bool.false_eq_true, if_false, Nat.add_sub_cancel]

theorem dump_loop_done (fuel : Nat) (st : DecodeState) (ptr : Nat) (left : Int)
    (c0 : Nat) (h : left ≤ 0) : dump_loop fuel st ptr left c0 = (st, [], left) := by
  cases fuel with
  | zero => rfl
  | succ fuel => rw [dump_loop, if_pos h]

/-! ### Truncated packets (claim C1) -/

/-- C1 (corrected): a type0 packet whose declared size exceeds the dwords
remaining in the buffer is still decoded in full — `dump_registers` consumes
all its declared operand words, including dwords past the remaining length —
and only afterwards does the loop terminate (the remaining count went
negative) and report the corrupt-stream diagnostic; no further packet of the
stream is decoded. -/
theorem truncated_packet_decoded_then_reported (fuel : Nat) (st : DecodeState)
    (ptr sz : Nat)
    (hp : ptr ≠ 0)
    (h0 : pkt_is_type0 (st.mem ptr) = true)
    (hsz : 0 < sz)
    (hbig : sz < type0_pkt_size (st.mem ptr) + 1) :
    dump_commands (fuel+1) st ptr sz =
      (dump_registers
         { st with draws := fun j => if j = st.ib then 0 else st.draws j,
                   current_draw_count := st.draw_count }
         (type0_pkt_offset (st.mem ptr)) (ptr+4) (type0_pkt_size (st.mem ptr)),
       [Ev.truncated ((sz : Int) - ((type0_pkt_size (st.mem ptr) + 1 : Nat) : Int))]) := by
  unfold dump_commands dump_commands_core
  rw [if_neg hp]
  dsimp only
  rw [dump_loop_type0_step fuel
        { st with draws := fun j => if j = st.ib then 0 else st.draws j }
        ptr (sz : Int) 0 (by omega) h0]
  dsimp only
  rw [dump_loop_done fuel _ _ _ _ (by omega)]
  rw [if_pos (by omega : ((sz : Int) - ((type0_pkt_size (st.mem ptr) + 1 : Nat) : Int)) < 0)]
  simp

/-- C4 (corrected): the repeat flag (header bit 15) only changes the printed
annotation; the register-file updates ignore it.  Decoding a type0 packet
with bit 15 set still writes operand word `j` to register `offset + j` —
sequentially increasing indices, exactly as without the flag. -/
theorem type0_repeat_flag_writes_sequential (fuel : Nat) (st : DecodeState)
    (ptr j : Nat)
    (hp : ptr ≠ 0)
    (h0 : pkt_is_type0 (st.mem ptr) = true)
    (hrep : (st.mem ptr) &&& 0x8000 ≠ 0)
    (hj : j < type0_pkt_size (st.mem ptr)) :
    (dump_commands (fuel+1) st ptr (type0_pkt_size (st.mem ptr) + 1)).1.regs
        (type0_pkt_offset (st.mem ptr) + j) = st.mem (ptr + 4 + 4*j) ∧
    (dump_commands (fuel+1) st ptr (type0_pkt_size (st.mem ptr) + 1)).1.written
        (type0_pkt_offset (st.mem ptr) + j) = true ∧
    (dump_commands (fuel+1) st ptr (type0_pkt_size (st.mem ptr) + 1)).1.rewritten
        (type0_pkt_offset (st.mem ptr) + j) = true := by
  have hstep : dump_commands (fuel+1) st ptr (type0_pkt_size (st.mem ptr) + 1) =
      (dump_registers
         { st with draws := fun i => if i = st.ib then 0 else st.draws i,
                   current_draw_count := st.draw_count }
         (type0_pkt_offset (st.mem ptr)) (ptr+4) (type0_pkt_size (st.mem ptr)), []) := by
    unfold dump_commands dump_commands_core
    rw [if_neg hp]
    dsimp only
    rw [dump_loop_type0_step fuel
          { st with draws := fun i => if i = st.ib then 0 else st.draws i }
          ptr ((type0_pkt_size (st.mem ptr) + 1 : Nat) : Int) 0 (by omega) h0]
    dsimp only
    rw [dump_loop_done fuel _ _ _ _ (by omega)]
    dsimp only
    rw [if_neg (by omega : ¬(((type0_pkt_size (st.mem ptr) + 1 : Nat) : Int) -
          ((type0_pkt_size (st.mem ptr) + 1 : Nat) : Int) < 0))]
  rw [hstep]
  have hw := dump_registers_writes_seq
      { st with draws := fun i => if i = st.ib then 0 else st.draws i,
                current_draw_count := st.draw_count }
      (type0_pkt_offset (st.mem ptr)) (ptr+4) (type0_pkt_size (st.mem ptr)) j hj
  simpa using hw

theorem dump_loop_type4_step (fuel : Nat) (st : DecodeState) (ptr : Nat)
    (left : Int) (c0 : Nat)
    (hl : 0 < left)
    (h0 : pkt_is_type0 (st.mem ptr) = false)
    (h4 : pkt_is_type4 (st.mem ptr) = true) :
    dump_loop (fuel+1) st ptr left c0 =
      (let st2 := { st with current_draw_count := st.draw_count }
       let count := type4_pkt_size (st.mem ptr) + 1
       let st3 := dump_registers st2 (type4_pkt_offset (st.mem ptr)) (ptr+4)
                    (type4_pkt_size (st.mem ptr))
       let r := dump_loop fuel st3 (ptr + 4*count) (left - count) count
       (r.1, r.2.1, r.2.2)) := by
  rw [dump_loop]
  rw [if_neg (by omega)]
  simp only [h0, h4, if_true, Bool.false_eq_true, if_false, Nat.add_sub_cancel]

theorem dump_loop_type7_step (fuel : Nat) (st : DecodeState) (ptr : Nat)
    (left : Int) (c0 : Nat)
    (hl : 0 < left)
    (h0 : pkt_is_type0 (st.mem ptr) = false)
    (h4 : pkt_is_type4 (st.mem ptr) = false)
    (h3 : pkt_is_type3 (st.mem ptr) = false)
    (h7 : pkt_is_type7 (st.mem ptr) = true) :
    dump_loop (fuel+1) st ptr left c0 =
      (let st2 := { st with current_draw_count := st.draw_count }
       let count := type7_pkt_size (st.mem ptr) + 1
       let d := dispatch_op (dump_commands_core (dump_loop fuel)) st2
                  (cp_type7_opcode (st.mem ptr)) (ptr+4) (count-1)
       let r := dump_loop fuel d.1 (ptr + 4*count) (left - count) count
       (r.1, d.2 ++ r.2.1, r.2.2)) := by
  rw [dump_loop]
  rw [if_neg (by omega)]
  simp only [h0, h4, h3, h7, if_true, Bool.false_eq_true, if_false, Nat.add_sub_cancel]

theorem dump_loop_type2_step (fuel : Nat) (st : DecodeState) (ptr : Nat)
    (left : Int) (c0 : Nat)
    (hl : 0 < left)
    (h0 : pkt_is_type0 (st.mem ptr) = false)
    (h4 : pkt_is_type4 (st.mem ptr) = false)
    (h3 : pkt_is_type3 (st.mem ptr) = false)
    (h7 : pkt_is_type7 (st.mem ptr) = false)
    (h2 : pkt_is_type2 (st.mem ptr) = true) :
    dump_loop (fuel+1) st ptr left c0 =
      dump_loop fuel { st with current_draw_count := st.draw_count }
        (ptr + 4*c0) (left - c0) c0 := by
  rw [dump_loop]
  rw [if_neg (by omega)]
  simp only [h0, h4, h3, h7, h2, if_true, Bool.false_eq_true, if_false]

theorem dump_loop_bad_step (fuel : Nat) (st : DecodeState) (ptr : Nat)
    (left : Int) (c0 : Nat)
    (hl : 0 < left)
    (h0 : pkt_is_type0 (st.mem ptr) = false)
    (h4 : pkt_is_type4 (st.mem ptr) = false)
    (h3 : pkt_is_type3 (st.mem ptr) = false)
    (h7 : pkt_is_type7 (st.mem ptr) = false)
    (h2 : pkt_is_type2 (st.mem ptr) = false) :
    dump_loop (fuel+1) st ptr left c0 =
      ({ st with current_draw_count := st.draw_count },
       [Ev.badType (st.mem ptr)], left) := by
  rw [dump_loop]
  rw [if_neg (by omega)]
  simp only [h0, h4, h3, h7, h2, if_true, Bool.false_eq_true, if_false]

theorem ibaddr_of_set_cdc (st : DecodeState) (k p : Nat) :
    ibaddr_of { st with current_draw_count := k } p = ibaddr_of st p := rfl

theorem ibsize_of_set_cdc (st : DecodeState) (k p : Nat) :
    ibsize_of { st with current_draw_count := k } p = ibsize_of st p := rfl

/-! ### Unresolved indirect buffers (claim C7) -/

/-- C7 (confirmed): when an indirect-buffer opcode's GPU address lies in no
registered region, the decoder emits exactly the "could not find" diagnostic,
performs no recursive decode (the continuation resumes from the same state),
and the outer stream continues with the next packet — the condition is never
fatal to the outer stream. -/
theorem unresolved_indirect_reports_and_continues (fuel : Nat) (st : DecodeState)
    (ptr : Nat) (left : Int) (c0 : Nat)
    (hl : 0 < left)
    (h0 : pkt_is_type0 (st.mem ptr) = false)
    (h4 : pkt_is_type4 (st.mem ptr) = false)
    (h3 : pkt_is_type3 (st.mem ptr) = true)
    (hop : type3_op (cp_type3_opcode (st.mem ptr)) = OpFxn.indirect)
    (hnf : st.buffers.find?
        (fun b => buffer_contains_gpuaddr b (ibaddr_of st (ptr+4))) = none) :
    dump_loop (fuel+1) st ptr left c0 =
      (let st2 := { st with current_draw_count := st.draw_count }
       let count := type3_pkt_size (st.mem ptr) + 1
       let r := dump_loop fuel st2 (ptr + 4*count) (left - count) count
       (r.1, Ev.ibNotFound (ibaddr_of st (ptr+4)) (ibsize_of st (ptr+4)) :: r.2.1,
        r.2.2)) := by
  rw [dump_loop_type3_step fuel st ptr left c0 hl h0 h4 h3]
  dsimp only
  simp only [dispatch_op, hop, cp_indirect, ibaddr_of_set_cdc, ibsize_of_set_cdc]
  rw [hnf]
  dsimp only
  rw [List.singleton_append]

theorem dump_registers_keeps (st : DecodeState) (regbase ptr n : Nat) :
    (dump_registers st regbase ptr n).ib = st.ib ∧
    (dump_registers st regbase ptr n).draws = st.draws := by
  induction n generalizing st regbase ptr with
  | zero => exact ⟨rfl, rfl⟩
  | succ n ih => exact ih (reg_set st regbase (st.mem ptr)) (regbase+1) (ptr+4)

theorem cp_draw_indx_keeps (st : DecodeState) (ptr n : Nat) :
    (cp_draw_indx st ptr n).1.ib = st.ib ∧
    ∀ j, j ≠ st.ib → (cp_draw_indx st ptr n).1.draws j = st.draws j := by
  by_cases h : 0 < (st.mem (ptr+4)) >>> 16 <;>
    simp [cp_draw_indx, draw_indx_common, dump_register_summary, do_query, h] <;>
    intro j hj <;> simp [hj]

theorem cp_draw_indx_2_keeps (st : DecodeState) (ptr n : Nat) :
    (cp_draw_indx_2 st ptr n).1.ib = st.ib ∧
    ∀ j, j ≠ st.ib → (cp_draw_indx_2 st ptr n).1.draws j = st.draws j := by
  by_cases h : 0 < (st.mem (ptr+4)) >>> 16 <;>
    simp [cp_draw_indx_2, draw_indx_common, dump_register_summary, do_query, h] <;>
    intro j hj <;> simp [hj]

theorem cp_draw_indx_offset_keeps (st : DecodeState) (ptr : Nat) :
    (cp_draw_indx_offset st ptr).1.ib = st.ib ∧
    (cp_draw_indx_offset st ptr).1.draws = st.draws := by
  by_cases h : 0 < st.mem (ptr+8) <;>
    simp [cp_draw_indx_offset, dump_register_summary, do_query, h]

theorem cp_event_write_keeps (st : DecodeState) (ptr : Nat) :
    (cp_event_write st ptr).1.ib = st.ib ∧
    (cp_event_write st ptr).1.draws = st.draws := by
  by_cases h : 500 < st.gpu_id ∧ is_blit_event (st.mem ptr) = true <;>
    simp [cp_event_write, dump_register_summary, do_query, h]

theorem cp_set_const_keeps (st : DecodeState) (ptr n : Nat) :
    (cp_set_const st ptr n).1.ib = st.ib ∧
    (cp_set_const st ptr n).1.draws = st.draws := by
  unfold cp_set_const
  by_cases h1 : (st.mem ptr >>> 16) &&& 0xf = 4
  · by_cases h2 : st.mem ptr &&& 0x80000000 ≠ 0
    · simp [h1, h2, reg_set]
    · have hk := dump_registers_keeps st ((st.mem ptr &&& 0xffff) + 0x2000) (ptr+4) (n-1)
      simp [h1, h2]
      exact hk
  · simp [h1]

theorem cp_indirect_keeps (dc : DecodeState → Nat → Nat → DecodeState × List Ev)
    (hdc : KeepsOuter dc) (st : DecodeState) (ptr n : Nat) :
    (cp_indirect dc st ptr n).1.ib = st.ib ∧
    ∀ j, j ≤ st.ib → (cp_indirect dc st ptr n).1.draws j = st.draws j := by
  unfold cp_indirect
  cases hf : st.buffers.find? (fun b => buffer_contains_gpuaddr b (ibaddr_of st ptr)) with
  | none => simp [hf]
  | some b =>
      simp only [hf]
      have h1 := hdc { st with ib := st.ib + 1 }
        (b.hostptr + (ibaddr_of st ptr - b.gpuaddr)) (ibsize_of st ptr)
      constructor
      · simp only [h1.1]
        omega
      · intro j hj
        exact h1.2 j (Nat.lt_succ_of_le hj)

theorem set_draw_state_loop_keeps (dc : DecodeState → Nat → Nat → DecodeState × List Ev)
    (hdc : KeepsOuter dc) :
    ∀ steps st ptr remaining,
      (set_draw_state_loop dc st ptr steps remaining).1.ib = st.ib ∧
      ∀ j, j ≤ st.ib →
        (set_draw_state_loop dc st ptr steps remaining).1.draws j = st.draws j := by
  intro steps
  induction steps with
  | zero => intro st ptr remaining; exact ⟨rfl, fun _ _ => rfl⟩
  | succ steps ih =>
      intro st ptr remaining
      cases remaining with
      | zero => exact ⟨rfl, fun _ _ => rfl⟩
      | succ rem =>
          rw [set_draw_state_loop]
          dsimp only
          by_cases hp : hostptr_of st.buffers
              (if is_64b st.gpu_id then st.mem (ptr+4) ||| st.mem (ptr+8) <<< 32
               else st.mem (ptr+4)) ≠ 0
          · rw [if_pos hp]
            have h1 := hdc { st with ib := st.ib + 1 }
              (hostptr_of st.buffers
                (if is_64b st.gpu_id then st.mem (ptr+4) ||| st.mem (ptr+8) <<< 32
                 else st.mem (ptr+4)))
              (st.mem ptr &&& 0xffff)
            have h2 := ih
              { (dc { st with ib := st.ib + 1 }
                  (hostptr_of st.buffers
                    (if is_64b st.gpu_id then st.mem (ptr+4) ||| st.mem (ptr+8) <<< 32
                     else st.mem (ptr+4)))
                  (st.mem ptr &&& 0xffff)).1 with
                ib := (dc { st with ib := st.ib + 1 }
                  (hostptr_of st.buffers
                    (if is_64b st.gpu_id then st.mem (ptr+4) ||| st.mem (ptr+8) <<< 32
                     else st.mem (ptr+4)))
                  (st.mem ptr &&& 0xffff)).1.ib - 1 }
              (ptr + 4 * (if is_64b st.gpu_id then 3 else 2))
              (rem + 1 - (if is_64b st.gpu_id then 3 else 2))
            constructor
            · rw [h2.1]
              simp only [h1.1]
              omega
            · intro j hj
              rw [h2.2 j (by simp only [h1.1]; omega)]
              simp only
              rw [h1.2 j (Nat.lt_succ_of_le hj)]
          · rw [if_neg hp]
            exact ih st (ptr + 4 * (if is_64b st.gpu_id then 3 else 2))
              (rem + 1 - (if is_64b st.gpu_id then 3 else 2))

theorem cp_set_render_mode_keeps (dc : DecodeState → Nat → Nat → DecodeState × List Ev)
    (hdc : KeepsOuter dc) (st : DecodeState) (ptr n : Nat) :
    (cp_set_render_mode dc st ptr n).1.ib = st.ib ∧
    ∀ j, j ≤ st.ib → (cp_set_render_mode dc st ptr n).1.draws j = st.draws j := by
  unfold cp_set_render_mode
  by_cases h1 : n = 1
  · simp [h1]
  · rw [if_neg h1]
    by_cases h5 : n = 5
    · simp [h5]
    · rw [if_neg h5]
      dsimp only
      by_cases hp : hostptr_of st.buffers (st.mem (ptr+24) ||| st.mem (ptr+28) <<< 32) ≠ 0
      · rw [if_pos hp]
        by_cases hq : quiet { st with render_mode := st.mem ptr, mode := st.mem (ptr+12) } 2 = false
        · rw [if_pos hq]
          have hk := hdc
            { st with render_mode := st.mem ptr, mode := st.mem (ptr+12), ib := st.ib + 1 }
            (hostptr_of st.buffers (st.mem (ptr+24) ||| st.mem (ptr+28) <<< 32))
            (st.mem (ptr+20))
          constructor
          · simp only [hk.1]
            omega
          · intro j hj
            exact hk.2 j (Nat.lt_succ_of_le hj)
        · rw [if_neg hq]
          exact ⟨rfl, fun _ _ => rfl⟩
      · rw [if_neg hp]
        exact ⟨rfl, fun _ _ => rfl⟩

theorem dispatch_op_keeps (dc : DecodeState → Nat → Nat → DecodeState × List Ev)
    (hdc : KeepsOuter dc) (st : DecodeState) (op ptr n : Nat) :
    (dispatch_op dc st op ptr n).1.ib = st.ib ∧
    ∀ j, j < st.ib → (dispatch_op dc st op ptr n).1.draws j = st.draws j := by
  cases htab : type3_op op <;> simp only [dispatch_op, htab]
  case indirect =>
      have h := cp_indirect_keeps dc hdc st ptr n
      exact ⟨h.1, fun j hj => h.2 j (Nat.le_of_lt hj)⟩
  case setDrawState =>
      have h := set_draw_state_loop_keeps dc hdc n st ptr n
      exact ⟨h.1, fun j hj => h.2 j (Nat.le_of_lt hj)⟩
  case setRenderMode =>
      have h := cp_set_render_mode_keeps dc hdc st ptr n
      exact ⟨h.1, fun j hj => h.2 j (Nat.le_of_lt hj)⟩
  case wfi => exact ⟨rfl, fun _ _ => rfl⟩
  case rmw => exact ⟨rfl, fun _ _ => rfl⟩
  case eventWrite =>
      have h := cp_event_write_keeps st ptr
      exact ⟨h.1, fun j _ => congrFun h.2 j⟩
  case runCl =>
      refine ⟨rfl, fun _ _ => rfl⟩
  case drawIndx =>
      have h := cp_draw_indx_keeps st ptr n
      exact ⟨h.1, fun j hj => h.2 j (Nat.ne_of_lt hj)⟩
  case drawIndx2 =>
      have h := cp_draw_indx_2_keeps st ptr n
      exact ⟨h.1, fun j hj => h.2 j (Nat.ne_of_lt hj)⟩
  case drawIndxOffset =>
      have h := cp_draw_indx_offset_keeps st ptr
      exact ⟨h.1, fun j _ => congrFun h.2 j⟩
  case execCs => exact ⟨rfl, fun _ _ => rfl⟩
  case blit => refine ⟨rfl, fun _ _ => rfl⟩
  case setConst =>
      have h := cp_set_const_keeps st ptr n
      exact ⟨h.1, fun j _ => congrFun h.2 j⟩
  case wideRegWrite =>
      have h := dump_registers_keeps st (st.mem ptr &&& 0xffff) (ptr+4) (n-1)
      exact ⟨h.1, fun j _ => congrFun h.2 j⟩
  case nop => exact ⟨trivial, fun _ _ => trivial⟩
  case memWrite => exact ⟨trivial, fun _ _ => trivial⟩
  case regToMem => exact ⟨trivial, fun _ _ => trivial⟩
  case imLoadi => exact ⟨trivial, fun _ _ => trivial⟩
  case loadState => exact ⟨trivial, fun _ _ => trivial⟩
  case setBin => exact ⟨trivial, fun _ _ => trivial⟩
  case none => exact ⟨trivial, fun _ _ => trivial⟩

theorem dump_commands_core_keeps
    (loop : DecodeState → Nat → Int → Nat → DecodeState × List Ev × Int)
    (hl : LoopKeeps loop) : KeepsOuter (dump_commands_core loop) := by
  intro st ptr sz
  unfold dump_commands_core
  by_cases hp : ptr = 0
  · simp [hp]
  · rw [if_neg hp]
    dsimp only
    have h := hl { st with draws := fun j => if j = st.ib then 0 else st.draws j }
      ptr (sz : Int) 0
    by_cases hneg :
        (loop { st with draws := fun j => if j = st.ib then 0 else st.draws j }
          ptr (sz : Int) 0).2.2 < 0
    · rw [if_pos hneg]
      refine ⟨h.1, fun j hj => ?_⟩
      rw [h.2 j hj]
      simp [Nat.ne_of_lt hj]
    · rw [if_neg hneg]
      refine ⟨h.1, fun j hj => ?_⟩
      rw [h.2 j hj]
      simp [Nat.ne_of_lt hj]

theorem dump_loop_keeps : ∀ fuel, LoopKeeps (dump_loop fuel) := by
  intro fuel
  induction fuel with
  | zero => intro st ptr left c0; exact ⟨rfl, fun _ _ => rfl⟩
  | succ fuel ih =>
      intro st ptr left c0
      by_cases hle : left ≤ 0
      · rw [dump_loop_done _ _ _ _ _ hle]
        exact ⟨rfl, fun _ _ => rfl⟩
      · have hl : 0 < left := by omega
        by_cases h0 : pkt_is_type0 (st.mem ptr) = true
        · rw [dump_loop_type0_step fuel st ptr left c0 hl h0]
          dsimp only
          have hk := dump_registers_keeps { st with current_draw_count := st.draw_count }
            (type0_pkt_offset (st.mem ptr)) (ptr+4) (type0_pkt_size (st.mem ptr))
          have hr := ih
            (dump_registers { st with current_draw_count := st.draw_count }
              (type0_pkt_offset (st.mem ptr)) (ptr+4) (type0_pkt_size (st.mem ptr)))
            (ptr + 4 * (type0_pkt_size (st.mem ptr) + 1))
            (left - ((type0_pkt_size (st.mem ptr) + 1 : Nat) : Int))
            (type0_pkt_size (st.mem ptr) + 1)
          refine ⟨by rw [hr.1, hk.1], fun j hj => ?_⟩
          rw [hr.2 j (by rw [hk.1]; exact hj), congrFun hk.2 j]
        · rw [Bool.not_eq_true] at h0
          by_cases h4 : pkt_is_type4 (st.mem ptr) = true
          · rw [dump_loop_type4_step fuel st ptr left c0 hl h0 h4]
            dsimp only
            have hk := dump_registers_keeps { st with current_draw_count := st.draw_count }
              (type4_pkt_offset (st.mem ptr)) (ptr+4) (type4_pkt_size (st.mem ptr))
            have hr := ih
              (dump_registers { st with current_draw_count := st.draw_count }
                (type4_pkt_offset (st.mem ptr)) (ptr+4) (type4_pkt_size (st.mem ptr)))
              (ptr + 4 * (type4_pkt_size (st.mem ptr) + 1))
              (left - ((type4_pkt_size (st.mem ptr) + 1 : Nat) : Int))
              (type4_pkt_size (st.mem ptr) + 1)
            refine ⟨by rw [hr.1, hk.1], fun j hj => ?_⟩
            rw [hr.2 j (by rw [hk.1]; exact hj), congrFun hk.2 j]
          · rw [Bool.not_eq_true] at h4
            by_cases h3 : pkt_is_type3 (st.mem ptr) = true
            · rw [dump_loop_type3_step fuel st ptr left c0 hl h0 h4 h3]
              dsimp only
              have hd := dispatch_op_keeps (dump_commands_core (dump_loop fuel))
                (dump_commands_core_keeps (dump_loop fuel) ih)
                { st with current_draw_count := st.draw_count }
                (cp_type3_opcode (st.mem ptr)) (ptr+4)
                (type3_pkt_size (st.mem ptr) + 1 - 1)
              have hr := ih
                (dispatch_op (dump_commands_core (dump_loop fuel))
                  { st with current_draw_count := st.draw_count }
                  (cp_type3_opcode (st.mem ptr)) (ptr+4)
                  (type3_pkt_size (st.mem ptr) + 1 - 1)).1
                (ptr + 4 * (type3_pkt_size (st.mem ptr) + 1))
                (left - ((type3_pkt_size (st.mem ptr) + 1 : Nat) : Int))
                (type3_pkt_size (st.mem ptr) + 1)
              refine ⟨by rw [hr.1, hd.1], fun j hj => ?_⟩
              rw [hr.2 j (by rw [hd.1]; exact hj), hd.2 j hj]
            · rw [Bool.not_eq_true] at h3
              by_cases h7 : pkt_is_type7 (st.mem ptr) = true
              · rw [dump_loop_type7_step fuel st ptr left c0 hl h0 h4 h3 h7]
                dsimp only
                have hd := dispatch_op_keeps (dump_commands_core (dump_loop fuel))
                  (dump_commands_core_keeps (dump_loop fuel) ih)
                  { st with current_draw_count := st.draw_count }
                  (cp_type7_opcode (st.mem ptr)) (ptr+4)
                  (type7_pkt_size (st.mem ptr) + 1 - 1)
                have hr := ih
                  (dispatch_op (dump_commands_core (dump_loop fuel))
                    { st with current_draw_count := st.draw_count }
                    (cp_type7_opcode (st.mem ptr)) (ptr+4)
                    (type7_pkt_size (st.mem ptr) + 1 - 1)).1
                  (ptr + 4 * (type7_pkt_size (st.mem ptr) + 1))
                  (left - ((type7_pkt_size (st.mem ptr) + 1 : Nat) : Int))
                  (type7_pkt_size (st.mem ptr) + 1)
                refine ⟨by rw [hr.1, hd.1], fun j hj => ?_⟩
                rw [hr.2 j (by rw [hd.1]; exact hj), hd.2 j hj]
              · rw [Bool.not_eq_true] at h7
                by_cases h2 : pkt_is_type2 (st.mem ptr) = true
                · rw [dump_loop_type2_step fuel st ptr left c0 hl h0 h4 h3 h7 h2]
                  exact ih { st with current_draw_count := st.draw_count }
                    (ptr + 4*c0) (left - c0) c0
                · rw [Bool.not_eq_true] at h2
                  rw [dump_loop_bad_step fuel st ptr left c0 hl h0 h4 h3 h7 h2]
                  exact ⟨rfl, fun _ _ => rfl⟩

/-! ### Nesting restores outer draw counters (claim C8) -/

/-- C8 (confirmed): recursively decoding an indirect buffer leaves the draw
counters of the outer nesting levels untouched: for every state, buffer table
and sub-buffer contents, and for every level `j` at or outside the current
one, `draws[j]` after `cp_indirect` returns equals its value before the call,
regardless of how many draws were counted inside the sub-buffer. -/
theorem indirect_restores_outer_draw_counter (fuel : Nat) (st : DecodeState)
    (ptr n j : Nat) (hj : j ≤ st.ib) :
    (cp_indirect (dump_commands fuel) st ptr n).1.draws j = st.draws j := by
  have h := cp_indirect_keeps (dump_commands fuel)
    (dump_commands_core_keeps (dump_loop fuel) (dump_loop_keeps fuel)) st ptr n
  exact h.2 j hj

/-- C8 witness: the registered sub-buffer contains a CP_DRAW_INDX draw;
after the recursion the level-1 counter shows that draw, while the level-0
counter still holds its pre-call value 7. -/
theorem indirect_restores_outer_draw_counter_witness :
    0 ≤ c8st.ib ∧
    (cp_indirect (dump_commands 3) c8st 4 2).1.draws 0 = c8st.draws 0 ∧
    (cp_indirect (dump_commands 3) c8st 4 2).1.draws 1 = 1 ∧
    (cp_indirect (dump_commands 3) c8st 4 2).1.draw_count = 1 :=
  ⟨Nat.zero_le _,
   indirect_restores_outer_draw_counter 3 c8st 4 2 0 (Nat.zero_le _),
   by decide, by decide⟩

/-- C1 witness: a 1-dword buffer holding a type0 header that declares 2
operand words; the decode reads past the end (register 0 receives the
out-of-buffer fill value) and the diagnostic records the -2 underflow. -/
theorem truncated_packet_decoded_then_reported_witness :
    (4 : Nat) ≠ 0 ∧ (0 : Nat) < 1 ∧ 1 < type0_pkt_size ((c1st 0xAAAA).mem 4) + 1 ∧
    (dump_commands (1+1) (c1st 0xAAAA) 4 1).1.regs 0 = 0xAAAA ∧
    (dump_commands (1+1) (c1st 0xAAAA) 4 1).2 = [Ev.truncated (-2)] :=
  ⟨by decide, by decide, by decide,
   congrArg (fun r => r.1.regs 0)
     (truncated_packet_decoded_then_reported 1 (c1st 0xAAAA) 4 1 (by decide) (by decide)
        (by decide) (by decide)),
   congrArg (fun r => r.2)
     (truncated_packet_decoded_then_reported 1 (c1st 0xAAAA) 4 1 (by decide) (by decide)
        (by decide) (by decide))⟩

/-- C4 witness: with the repeat flag set, operand word 1 still lands in
register base+1. -/
theorem type0_repeat_flag_writes_sequential_witness :
    (4 : Nat) ≠ 0 ∧ (c4st.mem 4) &&& 0x8000 ≠ 0 ∧ 1 < type0_pkt_size (c4st.mem 4) ∧
    ((dump_commands (1+1) c4st 4 (type0_pkt_size (c4st.mem 4) + 1)).1.regs
        (type0_pkt_offset (c4st.mem 4) + 1) = c4st.mem (4 + 4 + 4*1) ∧
     (dump_commands (1+1) c4st 4 (type0_pkt_size (c4st.mem 4) + 1)).1.written
        (type0_pkt_offset (c4st.mem 4) + 1) = true ∧
     (dump_commands (1+1) c4st 4 (type0_pkt_size (c4st.mem 4) + 1)).1.rewritten
        (type0_pkt_offset (c4st.mem 4) + 1) = true) :=
  ⟨by decide, by decide, by decide,
   type0_repeat_flag_writes_sequential 1 c4st 4 1 (by decide) (by decide)
     (by decide) (by decide)⟩

/-- C7 witness: with no buffers registered, the indirect packet yields only
the diagnostic event and the following type0 packet is still decoded
(register 5 receives 0xCAFE). -/
theorem unresolved_indirect_reports_and_continues_witness :
    (0 : Int) < 5 ∧
    pkt_is_type3 (c7st.mem 4) = true ∧
    type3_op (cp_type3_opcode (c7st.mem 4)) = OpFxn.indirect ∧
    (dump_loop (2+1) c7st 4 5 0).2.1 = [Ev.ibNotFound 0x9999 2] ∧
    (dump_loop (2+1) c7st 4 5 0).1.regs 5 = 0xCAFE :=
  ⟨by decide, by decide, by decide,
   congrArg (fun r => r.2.1)
     (unresolved_indirect_reports_and_continues 2 c7st 4 5 0
       (by decide) (by decide) (by decide) (by decide) (by decide) (by decide)),
   congrArg (fun r => r.1.regs 5)
     (unresolved_indirect_reports_and_continues 2 c7st 4 5 0
       (by decide) (by decide) (by decide) (by decide) (by decide) (by decide))⟩

/-- C1 counterexample: two memories that agree on the buffer's single dword
(the truncated type0 header at byte 4) but differ beyond it produce different
decode results — register 0 receives whatever lies past the end of the
buffer, so the decoder does read dwords beyond the remaining length before
the abort, contradicting the claim's "no operand word past the remaining
length is accessed". -/
theorem truncated_packet_reads_past_end_cex :
    (c1st 0xAAAA).mem 4 = (c1st 0xBBBB).mem 4 ∧
    type0_pkt_size ((c1st 0xAAAA).mem 4) + 1 = 3 ∧
    (dump_commands 2 (c1st 0xAAAA) 4 1).1.regs 0 = 0xAAAA ∧
    (dump_commands 2 (c1st 0xBBBB) 4 1).1.regs 0 = 0xBBBB ∧
    (0xAAAA : Nat) ≠ 0xBBBB ∧
    (dump_commands 2 (c1st 0xAAAA) 4 1).2 = [Ev.truncated (-2)] := by decide
